import Mathlib

/-
Verification of the agent turn orchestrator of the Nexus repository.

The subject is the function `consultAgent` in the Gemini service module
(second document of src/server.ts, lines 405-521).  The orchestrator:
resolves the API key from the environment, creates a chat session,
runs a function-call loop (capped at 5 iterations) inside a retry loop
(maxRetries = 3 attempts, exponential backoff on transient errors) and
classifies terminal failures into fixed remediation responses.

External collaborators (the Gemini model and the tool-execution HTTP
endpoint) are modelled as oracles passed in as function arguments:
`send : Nat -> Nat -> Except String ModelResponse` gives the outcome of
the k-th sendMessage call of a given attempt (an `Except.error` models a
thrown exception whose `message` is the string), and
`exec : ToolCall -> Except String String` gives the outcome of one
`fetch("/api/tools/execute", ...)` + `res.json()` round-trip
(`Except.error` models the thrown exception caught by the inner catch).
-/

namespace Nexus

/-- One function call emitted by the model: `{id, name, args}`
(src/server.ts, `response.functionCalls` elements). The `args` object is
kept opaque as its serialized form. -/
structure ToolCall where
  id : String
  name : String
  args : String
deriving DecidableEq

/-- The `response` field of one `functionResponses` entry:
`{content: result}` on success, `{error: message}` on a caught
failure (src/server.ts lines 454 and 460). -/
inductive ToolPayload where
  | content (result : String)
  | error (message : String)
deriving DecidableEq

/-- One entry pushed onto `functionResponses` (src/server.ts lines
452-463): `{name, response: {content: result} | {error: message}, id}`. -/
structure ToolResult where
  name : String
  payload : ToolPayload
  id : String
deriving DecidableEq

/-- A web citation `{uri, title}` (src/server.ts lines 476-479). -/
structure WebSource where
  uri : String
  title : String
deriving DecidableEq

/-- One grounding chunk; `web` is present exactly when the chunk carries
a web citation (src/server.ts line 475 `chunk.web`). -/
structure GroundingChunk where
  web : Option WebSource
deriving DecidableEq

/-- A model response as consumed by consultAgent: `text` (possibly
absent/empty), `functionCalls` (absent when the model made no calls;
JavaScript truthiness of the array is modelled by `Option.isSome`), and
the grounding chunks of `candidates?.[0]?.groundingMetadata
?.groundingChunks`. -/
structure ModelResponse where
  text : Option String
  functionCalls : Option (List ToolCall)
  chunks : Option (List GroundingChunk)
deriving DecidableEq

/-- The externally visible result of one turn (src/server.ts lines
345-348): `{ text: string, sources: {uri,title}[] }`. -/
structure AgentResponse where
  text : String
  sources : List WebSource
deriving DecidableEq

/-- Does `pat` match the beginning of `s` (character lists)? -/
def leadMatch : List Char → List Char → Bool
  | [], _ => true
  | _ :: _, [] => false
  | p :: ps, c :: cs => p = c && leadMatch ps cs

/-- Does `pat` occur somewhere inside `s` (character lists)? -/
def subMatch (pat : List Char) : List Char → Bool
  | [] => leadMatch pat []
  | c :: cs => leadMatch pat (c :: cs) || subMatch pat cs

/-- JavaScript `String.prototype.includes`: substring containment. -/
def containsSub (s pat : String) : Bool :=
  subMatch pat.data s.data

/-- JavaScript truthiness of an optional string: `undefined` and `""`
are falsy. -/
def truthy : Option String → Option String
  | none => none
  | some s => if s = "" then none else some s

/-- `process.env.API_KEY || process.env.GEMINI_API_KEY`
(src/server.ts line 407). -/
def resolveApiKey (apiKeyVar geminiKeyVar : Option String) : Option String :=
  match truthy apiKeyVar with
  | some s => some s
  | none => truthy geminiKeyVar

/-- The transient-error predicate (src/server.ts lines 486-489):
message contains "500", "INTERNAL", "Service Unavailable" or
"Deadline Exceeded". -/
def isTransient (msg : String) : Bool :=
  containsSub msg "500" || containsSub msg "INTERNAL" ||
  containsSub msg "Service Unavailable" || containsSub msg "Deadline Exceeded"

/-- The missing-key remediation response (src/server.ts lines 410-413). -/
def missingKeyResponse : AgentResponse :=
  { text := "## API Key Missing\n\nNo Gemini API key was found in the environment. \n\n**To resolve this:**\n1. Click the **Set API Key** button in the top-right header.\n2. Select a paid Google Cloud project with billing enabled.\n3. Once set, you can start interacting with Nexus."
    sources := [] }

/-- The quota-exhausted remediation response (src/server.ts lines
499-502). -/
def quotaResponse : AgentResponse :=
  { text := "## Quota Exhausted\n\nYou\x27ve reached the rate limit for the current API key. \n\n**To continue:**\n1. Click the **Set API Key** button in the header.\n2. Select a paid Google Cloud project with billing enabled.\n3. Try your request again."
    sources := [] }

/-- The invalid-key remediation response (src/server.ts lines 505-508). -/
def invalidKeyResponse : AgentResponse :=
  { text := "## Invalid API Key\n\nThe provided Gemini API key is invalid or has expired.\n\n**To fix this:**\n1. Click the **Set API Key** button in the header.\n2. Select a valid API key from a paid Google Cloud project.\n3. Try your request again."
    sources := [] }

/-- The internal-error remediation response (src/server.ts lines
511-514). -/
def internalErrorResponse : AgentResponse :=
  { text := "## Gemini Internal Error\n\nThe Gemini API encountered an internal error. This is usually temporary.\n\n**Suggestions:**\n1. Wait a few seconds and try again.\n2. If the problem persists, try switching to a different API key using the **Set API Key** button.\n3. Simplify your request."
    sources := [] }

/-- The generic response returned after the retry loop exits by its
condition (src/server.ts line 520). -/
def fallbackResponse : AgentResponse :=
  { text := "Failed to get a response after multiple attempts.", sources := [] }

/-- One tool invocation (src/server.ts lines 444-463): try the
fetch+json round-trip; on success push `{name, response: {content},
id}`, on a thrown error push `{name, response: {error}, id}`. -/
def invokeTool (exec : ToolCall → Except String String) (call : ToolCall) : ToolResult :=
  match exec call with
  | .ok result => { name := call.name, payload := .content result, id := call.id }
  | .error msg => { name := call.name, payload := .error msg, id := call.id }

/-- The `for (const call of response.functionCalls)` loop
(src/server.ts lines 443-464): one ToolResult pushed per call, in call
order. -/
def processCalls (exec : ToolCall → Except String String) : List ToolCall → List ToolResult
  | [] => []
  | call :: rest => invokeTool exec call :: processCalls exec rest

/-- JavaScript `a || d` for an optional string `a`: the default wins
when `a` is undefined or empty (src/server.ts line 471
`response.text || "Task completed."`). -/
def jsOrDefault (t : Option String) (d : String) : String :=
  match t with
  | none => d
  | some s => if s = "" then d else s

/-- Source extraction (src/server.ts lines 472-480): if grounding
chunks are present, keep those with a `web` citation and map each to
`{uri, title}`; otherwise the empty list. -/
def extractSources : Option (List GroundingChunk) → List WebSource
  | none => []
  | some chunks =>
      (chunks.filter fun c => c.web.isSome).map fun c => c.web.getD { uri := "", title := "" }

/-- The function-call loop (src/server.ts lines 438-469):
`while (response.functionCalls && iterations < 5)`.  Each iteration
increments the counter, dispatches every call of the current response,
and sends the collected results back with the next `sendMessage`
(modelled by `send msgIdx`); a thrown sendMessage error propagates to
the enclosing try.  Returns the final response together with the final
iteration count. -/
def fcLoop (send : Nat → Except String ModelResponse)
    (exec : ToolCall → Except String String)
    (response : ModelResponse) (iterations msgIdx : Nat) :
    Except String (ModelResponse × Nat) :=
  if _h : response.functionCalls.isSome = true ∧ iterations < 5 then
    let _results := processCalls exec (response.functionCalls.getD [])
    match send msgIdx with
    | .error e => .error e
    | .ok next => fcLoop send exec next (iterations + 1) (msgIdx + 1)
  else
    .ok (response, iterations)
termination_by 5 - iterations
decreasing_by omega

/-- One full turn attempt: the body of the `try` block (src/server.ts
lines 434-482).  `send 0` is the initial `chat.sendMessage({message:
userQuery})`; the loop then uses `send 1`, `send 2`, ... -/
def runAttempt (send : Nat → Except String ModelResponse)
    (exec : ToolCall → Except String String) : Except String AgentResponse :=
  match send 0 with
  | .error e => .error e
  | .ok r0 =>
    match fcLoop send exec r0 0 1 with
    | .error e => .error e
    | .ok (r, _) =>
        .ok { text := jsOrDefault r.text "Task completed."
              sources := extractSources r.chunks }

/-- `const maxRetries = 3` (src/server.ts line 430). -/
def maxRetries : Nat := 3

/-- How the turn ends: a normal `return` of an AgentResponse, or a
re-`throw` of the error message. -/
inductive ConsultOutcome where
  | returned (r : AgentResponse)
  | thrown (msg : String)
deriving DecidableEq

/-- The non-retry part of the catch block (src/server.ts lines
498-516): quota check first, then invalid key, then the narrower
"500"/"INTERNAL" internal-error check, else re-throw. -/
def handleFinalError (msg : String) : ConsultOutcome :=
  if containsSub msg "429" || containsSub msg "RESOURCE_EXHAUSTED" then
    .returned quotaResponse
  else if containsSub msg "API_KEY_INVALID" || containsSub msg "invalid API key" then
    .returned invalidKeyResponse
  else if containsSub msg "500" || containsSub msg "INTERNAL" then
    .returned internalErrorResponse
  else
    .thrown msg

/-- The retry loop `while (retryCount < maxRetries)` (src/server.ts
lines 433-518).  `attemptSend a` is the send oracle of the attempt run
with `retryCount = a`.  On a transient failure with retries left the
counter is incremented and a backoff delay of `2^retryCount * 1000`
milliseconds is recorded before the next attempt; otherwise the catch
tail `handleFinalError` decides the outcome.  The result carries the
outcome, the list of backoff delays (milliseconds, in order) and the
number of attempts started; `none` means the loop exited because its
condition became false (reaching the post-loop fallback return). -/
def retryLoop (attemptSend : Nat → Nat → Except String ModelResponse)
    (exec : ToolCall → Except String String) (retryCount : Nat) :
    Option (ConsultOutcome × List Nat × Nat) :=
  if _h : retryCount < maxRetries then
    match runAttempt (attemptSend retryCount) exec with
    | .ok resp => some (.returned resp, [], retryCount + 1)
    | .error e =>
      if isTransient e = true ∧ retryCount < maxRetries - 1 then
        match retryLoop attemptSend exec (retryCount + 1) with
        | some (out, ds, n) => some (out, 2 ^ (retryCount + 1) * 1000 :: ds, n)
        | none => none
      else
        some (handleFinalError e, [], retryCount + 1)
  else
    none
termination_by maxRetries - retryCount
decreasing_by simp [maxRetries] at *; omega

/-- The observable trace of one `consultAgent` invocation: how it
ended, the backoff delays (ms) in order, how many attempts were
started, and whether a chat session was created
(`ai.chats.create`, src/server.ts line 418). -/
structure RunTrace where
  outcome : ConsultOutcome
  delays : List Nat
  attempts : Nat
  sessionCreated : Bool
deriving DecidableEq

/-- `consultAgent` (src/server.ts lines 405-521): resolve the key (a
missing key short-circuits before the session is created and before any
attempt), otherwise create the session and run the retry loop; if the
loop ever exited by its condition the post-loop fallback response would
be returned. -/
def consultAgent (apiKeyVar geminiKeyVar : Option String)
    (attemptSend : Nat → Nat → Except String ModelResponse)
    (exec : ToolCall → Except String String) : RunTrace :=
  match resolveApiKey apiKeyVar geminiKeyVar with
  | none =>
      { outcome := .returned missingKeyResponse, delays := [], attempts := 0
        sessionCreated := false }
  | some _ =>
    match retryLoop attemptSend exec 0 with
    | some (out, ds, n) =>
        { outcome := out, delays := ds, attempts := n, sessionCreated := true }
    | none =>
        { outcome := .returned fallbackResponse, delays := [], attempts := maxRetries
          sessionCreated := true }

/-! ## Helper lemmas -/

lemma processCalls_eq_map (exec : ToolCall → Except String String) (calls : List ToolCall) :
    processCalls exec calls = calls.map (invokeTool exec) := by
  induction calls with
  | nil => rfl
  | cons c cs ih => simp [processCalls, ih]

lemma invokeTool_id (exec : ToolCall → Except String String) (c : ToolCall) :
    (invokeTool exec c).id = c.id := by
  unfold invokeTool
  cases exec c <;> rfl

lemma fcLoop_le (send : Nat → Except String ModelResponse)
    (exec : ToolCall → Except String String) :
    ∀ (k it : Nat) (r : ModelResponse) (msgIdx : Nat) (r' : ModelResponse) (n : Nat),
      it ≤ 5 → 5 - it ≤ k → fcLoop send exec r it msgIdx = .ok (r', n) → n ≤ 5 := by
  intro k
  induction k with
  | zero =>
    intro it r msgIdx r' n hle hk heq
    have hit : it = 5 := by omega
    subst hit
    unfold fcLoop at heq
    simp at heq
    omega
  | succ k ih =>
    intro it r msgIdx r' n hle hk heq
    unfold fcLoop at heq
    by_cases hc : r.functionCalls.isSome = true ∧ it < 5
    · rw [dif_pos hc] at heq
      cases hsend : send msgIdx with
      | error e => simp [hsend] at heq
      | ok next =>
        simp only [hsend] at heq
        exact ih (it + 1) next (msgIdx + 1) r' n (by omega) (by omega) heq
    · rw [dif_neg hc] at heq
      simp at heq
      omega

lemma fcLoop_exact (send : Nat → Except String ModelResponse)
    (exec : ToolCall → Except String String)
    (hs : ∀ j, ∃ r, send j = .ok r ∧ r.functionCalls.isSome = true) :
    ∀ (k it : Nat) (r : ModelResponse) (msgIdx : Nat),
      5 - it = k → it ≤ 5 → r.functionCalls.isSome = true →
      ∃ r', fcLoop send exec r it msgIdx = .ok (r', 5) := by
  intro k
  induction k with
  | zero =>
    intro it r msgIdx hk hle hr
    have hit : it = 5 := by omega
    subst hit
    refine ⟨r, ?_⟩
    unfold fcLoop
    simp
  | succ k ih =>
    intro it r msgIdx hk hle hr
    obtain ⟨next, hsend, hnext⟩ := hs (msgIdx)
    obtain ⟨r', hrec⟩ := ih (it + 1) next (msgIdx + 1) (by omega) (by omega) hnext
    refine ⟨r', ?_⟩
    unfold fcLoop
    rw [dif_pos ⟨hr, by omega⟩]
    simp only [hsend]
    exact hrec

lemma retryLoop_ok_step (s : Nat → Nat → Except String ModelResponse)
    (e : ToolCall → Except String String) (rc : Nat) (resp : AgentResponse)
    (hlt : rc < maxRetries) (hA : runAttempt (s rc) e = .ok resp) :
    retryLoop s e rc = some (.returned resp, [], rc + 1) := by
  unfold retryLoop
  rw [dif_pos hlt, hA]

lemma retryLoop_error_step (s : Nat → Nat → Except String ModelResponse)
    (e : ToolCall → Except String String) (rc : Nat) (msg : String)
    (hlt : rc < maxRetries) (hA : runAttempt (s rc) e = .error msg)
    (hT : ¬(isTransient msg = true ∧ rc < maxRetries - 1)) :
    retryLoop s e rc = some (handleFinalError msg, [], rc + 1) := by
  unfold retryLoop
  rw [dif_pos hlt]
  simp only [hA]
  rw [if_neg hT]

lemma retryLoop_retry_step (s : Nat → Nat → Except String ModelResponse)
    (e : ToolCall → Except String String) (rc : Nat) (msg : String)
    (hlt : rc < maxRetries) (hA : runAttempt (s rc) e = .error msg)
    (hT : isTransient msg = true) (hR : rc < maxRetries - 1) :
    retryLoop s e rc =
      match retryLoop s e (rc + 1) with
      | some (out, ds, n) => some (out, 2 ^ (rc + 1) * 1000 :: ds, n)
      | none => none := by
  conv_lhs => rw [retryLoop.eq_def]
  rw [dif_pos hlt]
  simp only [hA]
  rw [if_pos ⟨hT, hR⟩]

lemma retryLoop_isSome_of_lt (s : Nat → Nat → Except String ModelResponse)
    (e : ToolCall → Except String String) :
    ∀ (k rc : Nat), maxRetries - rc = k → rc < maxRetries →
      (retryLoop s e rc).isSome = true := by
  intro k
  induction k with
  | zero =>
    intro rc hk hlt
    simp [maxRetries] at hk hlt
    omega
  | succ k ih =>
    intro rc hk hlt
    conv_lhs => rw [retryLoop.eq_def]
    rw [dif_pos hlt]
    cases hA : runAttempt (s rc) e with
    | ok resp => simp
    | error msg =>
      simp only []
      by_cases hT : isTransient msg = true ∧ rc < maxRetries - 1
      · rw [if_pos hT]
        have hs := ih (rc + 1) (by simp [maxRetries] at hk ⊢; omega)
          (by simp [maxRetries] at hT ⊢; omega)
        cases hrec : retryLoop s e (rc + 1) with
        | none =>
          rw [hrec] at hs
          simp at hs
        | some t =>
          obtain ⟨o, ds, n⟩ := t
          simp
      · rw [if_neg hT]
        simp

lemma retryLoop_bounds (s : Nat → Nat → Except String ModelResponse)
    (e : ToolCall → Except String String) :
    ∀ (k rc : Nat), maxRetries - rc = k →
      ∀ o ds n, retryLoop s e rc = some (o, ds, n) →
        n ≤ maxRetries ∧ ds.length + rc + 1 ≤ maxRetries := by
  intro k
  induction k with
  | zero =>
    intro rc hk o ds n heq
    have hge : ¬ rc < maxRetries := by simp [maxRetries] at hk ⊢; omega
    unfold retryLoop at heq
    rw [dif_neg hge] at heq
    simp at heq
  | succ k ih =>
    intro rc hk o ds n heq
    by_cases hlt : rc < maxRetries
    · rw [retryLoop.eq_def] at heq
      rw [dif_pos hlt] at heq
      cases hA : runAttempt (s rc) e with
      | ok resp =>
        simp only [hA] at heq
        simp at heq
        obtain ⟨ho, hds, hn⟩ := heq
        subst hds
        subst hn
        simp [maxRetries] at hlt ⊢
        omega
      | error msg =>
        simp only [hA] at heq
        by_cases hT : isTransient msg = true ∧ rc < maxRetries - 1
        · rw [if_pos hT] at heq
          cases hrec : retryLoop s e (rc + 1) with
          | none =>
            rw [hrec] at heq
            simp at heq
          | some t =>
            obtain ⟨o2, ds2, n2⟩ := t
            rw [hrec] at heq
            simp at heq
            obtain ⟨ho, hds, hn⟩ := heq
            obtain ⟨hn2, hlen2⟩ := ih (rc + 1) (by simp [maxRetries] at hk ⊢; omega) o2 ds2 n2 hrec
            subst hds
            subst hn
            have hrc2 := hT.2
            simp [maxRetries] at hrc2 hn2 hlen2 ⊢
            omega
        · rw [if_neg hT] at heq
          simp at heq
          obtain ⟨ho, hds, hn⟩ := heq
          subst hds
          subst hn
          simp [maxRetries] at hlt ⊢
          omega
    · rw [retryLoop.eq_def] at heq
      rw [dif_neg hlt] at heq
      simp at heq

lemma retryLoop_all_fail_transient (s : Nat → Nat → Except String ModelResponse)
    (e : ToolCall → Except String String) (msg : String)
    (hfail : ∀ i, runAttempt (s i) e = .error msg) (ht : isTransient msg = true) :
    retryLoop s e 0 = some (handleFinalError msg, [2 * 1000, 4 * 1000], 3) := by
  have h2 : retryLoop s e 2 = some (handleFinalError msg, [], 3) := by
    have := retryLoop_error_step s e 2 msg (by simp [maxRetries]) (hfail 2)
      (by simp [maxRetries])
    simpa using this
  have h1 : retryLoop s e 1 = some (handleFinalError msg, [4 * 1000], 3) := by
    rw [retryLoop_retry_step s e 1 msg (by simp [maxRetries]) (hfail 1) ht
      (by simp [maxRetries]), h2]
    simp
  rw [retryLoop_retry_step s e 0 msg (by simp [maxRetries]) (hfail 0) ht
    (by simp [maxRetries]), h1]
  simp

lemma retryLoop_fail_nontransient (s : Nat → Nat → Except String ModelResponse)
    (e : ToolCall → Except String String) (msg : String)
    (h0 : runAttempt (s 0) e = .error msg) (ht : isTransient msg = false) :
    retryLoop s e 0 = some (handleFinalError msg, [], 1) := by
  exact retryLoop_error_step s e 0 msg (by simp [maxRetries]) h0 (by simp [ht])

lemma consultAgent_some_key (a g : Option String) (key : String)
    (s : Nat → Nat → Except String ModelResponse) (e : ToolCall → Except String String)
    (hk : resolveApiKey a g = some key) :
    consultAgent a g s e =
      match retryLoop s e 0 with
      | some (out, ds, n) =>
          { outcome := out, delays := ds, attempts := n, sessionCreated := true }
      | none =>
          { outcome := .returned fallbackResponse, delays := [], attempts := maxRetries
            sessionCreated := true } := by
  unfold consultAgent
  rw [hk]

lemma extractSources_eq_filterMap (oc : Option (List GroundingChunk)) :
    extractSources oc =
      (oc.getD []).filterMap fun c => c.web.map fun w => { uri := w.uri, title := w.title } := by
  cases oc with
  | none => rfl
  | some cs =>
    induction cs with
    | nil => rfl
    | cons c cs ih =>
      cases hw : c.web with
      | none => simpa [extractSources, hw] using ih
      | some w => simpa [extractSources, hw] using ih

/-! ## Concrete inputs used by witnesses and counterexamples -/

/-- A dispatcher oracle whose every call fails as when no provider is
connected (the tool endpoint replies with an error body). -/
def execAbsent : ToolCall → Except String String := fun _ => .error "GitHub not connected"

/-- A dispatcher oracle whose every call throws. -/
def execBoom : ToolCall → Except String String := fun _ => .error "boom"

/-- The tool call of the scenario in the spec: `{id:"1",
name:"list_github_repos", args:{}}`. -/
def callRepos : ToolCall := { id := "1", name := "list_github_repos", args := "" }

/-- A final model response with plain text and no calls. -/
def respHello : ModelResponse :=
  { text := some "Here are your repos: r1.", functionCalls := none, chunks := none }

/-- A model response that requests a tool call. -/
def respCalls : ModelResponse :=
  { text := none, functionCalls := some [callRepos], chunks := none }

/-- A model that answers every message with plain text. -/
def sendHello : Nat → Nat → Except String ModelResponse := fun _ _ => .ok respHello

/-- A model that requests tool calls in every response, indefinitely. -/
def sendCallsForever : Nat → Except String ModelResponse := fun _ => .ok respCalls

/-- A model whose every sendMessage throws with the given message. -/
def sendFailWith (msg : String) : Nat → Nat → Except String ModelResponse :=
  fun _ _ => .error msg

/-- A model that throws "Deadline Exceeded" on attempts 0 and 1 and
answers with plain text on attempt 2. -/
def sendRecover : Nat → Nat → Except String ModelResponse :=
  fun attempt _ => if attempt < 2 then .error "Deadline Exceeded" else .ok respHello

/-- A no-calls model response whose text is the empty string. -/
def respEmptyText : ModelResponse :=
  { text := some "", functionCalls := none, chunks := none }

/-- A model that answers every message with an empty-text, no-calls
response. -/
def sendEmptyText : Nat → Nat → Except String ModelResponse := fun _ _ => .ok respEmptyText

/-! ## Claims -/

/-- Claim C1: for every ToolCall of a model response processed in one
iteration of the function-call loop, exactly one ToolResult is
produced, ids match pairwise, the result list preserves the order of
the calls, and a failure of one invocation is captured in that call's
payload (the dispatch is total: no call aborts the turn or drops the
other results). -/
theorem toolresult_pairing (exec : ToolCall → Except String String) (calls : List ToolCall) :
    (processCalls exec calls).length = calls.length ∧
    (∀ i : Nat, (processCalls exec calls)[i]? = (calls[i]?).map (invokeTool exec)) ∧
    (∀ i : Nat, ((processCalls exec calls)[i]?).map ToolResult.id = (calls[i]?).map ToolCall.id) ∧
    (∀ call msg, exec call = .error msg →
      invokeTool exec call = { name := call.name, payload := .error msg, id := call.id }) := by
  refine ⟨?_, ?_, ?_, ?_⟩
  · simp [processCalls_eq_map]
  · intro i
    simp [processCalls_eq_map]
  · intro i
    simp [processCalls_eq_map]
    cases calls[i]? with
    | none => rfl
    | some c => simp [invokeTool_id]
  · intro call msg h
    unfold invokeTool
    rw [h]

/-- Witness for C1: a failing dispatcher call is folded into the
result payload with the call's id. -/
theorem toolresult_pairing_witness :
    invokeTool execBoom callRepos =
      { name := callRepos.name, payload := .error "boom", id := callRepos.id } :=
  (toolresult_pairing execBoom [callRepos]).2.2.2 callRepos "boom" rfl

/-- Claim C2: the function-call loop is a total function (its Lean
definition carries the termination proof, so it terminates for every
model behaviour); starting from iteration count 0 the final count never
exceeds 5, and when the model requests tool calls in every response
the loop exits with the count exactly 5. -/
theorem fc_loop_iteration_cap (send : Nat → Except String ModelResponse)
    (exec : ToolCall → Except String String) :
    (∀ (r0 r : ModelResponse) (n : Nat), fcLoop send exec r0 0 1 = .ok (r, n) → n ≤ 5) ∧
    ((∀ j, ∃ r, send j = .ok r ∧ r.functionCalls.isSome = true) →
      ∀ r0 : ModelResponse, r0.functionCalls.isSome = true →
        ∃ r, fcLoop send exec r0 0 1 = .ok (r, 5)) := by
  constructor
  · intro r0 r n heq
    exact fcLoop_le send exec 5 0 r0 1 r n (by omega) (by omega) heq
  · intro hs r0 hr0
    exact fcLoop_exact send exec hs 5 0 r0 1 rfl (by omega) hr0

/-- Witness for C2: a model that requests calls indefinitely makes the
loop exit after exactly 5 iterations. -/
theorem fc_loop_iteration_cap_witness :
    ∃ r, fcLoop sendCallsForever execAbsent respCalls 0 1 = .ok (r, 5) :=
  (fc_loop_iteration_cap sendCallsForever execAbsent).2
    (fun _ => ⟨respCalls, rfl, rfl⟩) respCalls rfl

/-- Claim C7: with no Model Service credential in the environment,
consultAgent returns the missing-key remediation immediately: no
session is created, no attempt is started, and the result does not
depend on the model or tool oracles (no network call is issued). -/
theorem missing_key_short_circuit (a g : Option String)
    (s : Nat → Nat → Except String ModelResponse) (e : ToolCall → Except String String)
    (h : resolveApiKey a g = none) :
    consultAgent a g s e =
      { outcome := .returned missingKeyResponse, delays := [], attempts := 0
        sessionCreated := false } := by
  unfold consultAgent
  rw [h]

/-- Witness for C7: both environment variables absent. -/
theorem missing_key_short_circuit_witness :
    consultAgent none none sendHello execAbsent =
      { outcome := .returned missingKeyResponse, delays := [], attempts := 0
        sessionCreated := false } :=
  missing_key_short_circuit none none sendHello execAbsent rfl

/-- Claim C10: every non-success AgentResponse consultAgent can return
(the missing-key, quota-exhausted, invalid-key and internal-error
remediations, and the post-loop generic failure response) has an empty
sources list. -/
theorem failure_responses_empty_sources :
    missingKeyResponse.sources = [] ∧ quotaResponse.sources = [] ∧
    invalidKeyResponse.sources = [] ∧ internalErrorResponse.sources = [] ∧
    fallbackResponse.sources = [] :=
  ⟨rfl, rfl, rfl, rfl, rfl⟩

/-- Claim C3: transient failures on the first two attempts followed by
a success on the third yield the successful AgentResponse with no
failure artifacts visible to the caller; the backoff delay before
retry attempt a is 2^a seconds (2000 ms then 4000 ms in the recorded
trace), and no execution ever starts more than maxRetries = 3
attempts. -/
theorem transient_retry_success (a g : Option String)
    (s : Nat → Nat → Except String ModelResponse) (e : ToolCall → Except String String)
    (e0 e1 : String) (resp : AgentResponse)
    (hk : (resolveApiKey a g).isSome = true)
    (h0 : runAttempt (s 0) e = .error e0) (t0 : isTransient e0 = true)
    (h1 : runAttempt (s 1) e = .error e1) (t1 : isTransient e1 = true)
    (h2 : runAttempt (s 2) e = .ok resp) :
    consultAgent a g s e =
      { outcome := .returned resp, delays := [2 * 1000, 4 * 1000], attempts := 3
        sessionCreated := true } ∧
    ∀ (a2 g2 : Option String) (s2 : Nat → Nat → Except String ModelResponse)
      (e2 : ToolCall → Except String String),
      (consultAgent a2 g2 s2 e2).attempts ≤ maxRetries := by
  constructor
  · obtain ⟨key, hkey⟩ := Option.isSome_iff_exists.mp hk
    have hrl2 : retryLoop s e 2 = some (.returned resp, [], 3) :=
      retryLoop_ok_step s e 2 resp (by simp [maxRetries]) h2
    have hrl1 : retryLoop s e 1 = some (.returned resp, [4 * 1000], 3) := by
      rw [retryLoop_retry_step s e 1 e1 (by simp [maxRetries]) h1 t1 (by simp [maxRetries]),
        hrl2]
      simp
    have hrl0 : retryLoop s e 0 = some (.returned resp, [2 * 1000, 4 * 1000], 3) := by
      rw [retryLoop_retry_step s e 0 e0 (by simp [maxRetries]) h0 t0 (by simp [maxRetries]),
        hrl1]
      simp
    rw [consultAgent_some_key a g key s e hkey, hrl0]
  · intro a2 g2 s2 e2
    unfold consultAgent
    cases hr : resolveApiKey a2 g2 with
    | none => simp [maxRetries]
    | some key =>
      cases hrl : retryLoop s2 e2 0 with
      | none => simp
      | some t =>
        obtain ⟨o, ds, n⟩ := t
        have hb := (retryLoop_bounds s2 e2 maxRetries 0 rfl o ds n hrl).1
        simpa using hb

/-- Witness for C3: "Deadline Exceeded" on attempts 1 and 2, success
on attempt 3, gives the success response after backoffs of 2000 ms
and 4000 ms. -/
theorem transient_retry_success_witness :
    consultAgent (some "k") none sendRecover execAbsent =
      { outcome := .returned { text := "Here are your repos: r1.", sources := [] }
        delays := [2 * 1000, 4 * 1000], attempts := 3, sessionCreated := true } :=
  (transient_retry_success (some "k") none sendRecover execAbsent
    "Deadline Exceeded" "Deadline Exceeded"
    { text := "Here are your repos: r1.", sources := [] }
    (by decide) rfl (by decide) rfl (by decide)
    (by simp [runAttempt, sendRecover, fcLoop, respHello, jsOrDefault, extractSources])).1

/-- Claim C9: the retry counter never exceeds 2: started at 0 the
retry loop always ends by a return inside its body or a re-throw
(`retryLoop` never reaches the state where the while condition is
false, modelled by `none`), so the post-loop fallback return in
consultAgent is unreachable; additionally at most 3 attempts are
started and at most 2 backoff delays are recorded. -/
theorem retry_loop_never_falls_through (s : Nat → Nat → Except String ModelResponse)
    (e : ToolCall → Except String String) :
    (retryLoop s e 0).isSome = true ∧
    ∀ o ds n, retryLoop s e 0 = some (o, ds, n) →
      n ≤ maxRetries ∧ ds.length ≤ maxRetries - 1 := by
  constructor
  · exact retryLoop_isSome_of_lt s e maxRetries 0 rfl (by simp [maxRetries])
  · intro o ds n h
    have hb := retryLoop_bounds s e maxRetries 0 rfl o ds n h
    refine ⟨hb.1, ?_⟩
    have h2 := hb.2
    simp [maxRetries] at h2 ⊢
    omega

/-- Witness for C9: a normal single-attempt success run satisfies the
attempt and delay bounds. -/
theorem retry_loop_never_falls_through_witness :
    1 ≤ maxRetries ∧ List.length ([] : List Nat) ≤ maxRetries - 1 :=
  (retry_loop_never_falls_through sendHello execAbsent).2
    (.returned { text := "Here are your repos: r1.", sources := [] }) [] 1
    (by simp [retryLoop, runAttempt, sendHello, fcLoop, respHello, jsOrDefault,
      extractSources, maxRetries])

/-- Counterexample to C4 as stated: "Service Unavailable" matches the
Transient predicate, but when retries are exhausted it is re-thrown,
not converted to the InternalError remediation (the final check only
looks for "500" or "INTERNAL"). -/
theorem transient_exhausted_counterexample :
    (consultAgent (some "k") none (sendFailWith "Service Unavailable") execAbsent).outcome =
      .thrown "Service Unavailable" ∧
    isTransient "Service Unavailable" = true ∧
    ConsultOutcome.thrown "Service Unavailable" ≠ .returned internalErrorResponse := by
  refine ⟨?_, by decide, by decide⟩
  have hrl := retryLoop_all_fail_transient (sendFailWith "Service Unavailable") execAbsent
    "Service Unavailable" (fun i => rfl) (by decide)
  have hfe : handleFinalError "Service Unavailable" = .thrown "Service Unavailable" := by
    decide
  rw [consultAgent_some_key (some "k") none "k" _ _ (by decide), hrl, hfe]

/-- Claim C4 (amended): a Transient-classified error on the final
attempt (and matching no quota or invalid-key substring) yields the
InternalError remediation exactly when its message contains "500" or
"INTERNAL"; a transient error matching only "Service Unavailable" or
"Deadline Exceeded" is re-thrown instead.  The two retries with
backoffs 2000 ms and 4000 ms happen first. -/
theorem transient_exhausted_remediation (a g : Option String)
    (s : Nat → Nat → Except String ModelResponse) (e : ToolCall → Except String String)
    (msg : String)
    (hk : (resolveApiKey a g).isSome = true)
    (ht : isTransient msg = true)
    (hq1 : containsSub msg "429" = false) (hq2 : containsSub msg "RESOURCE_EXHAUSTED" = false)
    (hi1 : containsSub msg "API_KEY_INVALID" = false)
    (hi2 : containsSub msg "invalid API key" = false)
    (hfail : ∀ i, runAttempt (s i) e = .error msg) :
    (consultAgent a g s e).outcome =
      (if containsSub msg "500" || containsSub msg "INTERNAL" then
        ConsultOutcome.returned internalErrorResponse
      else ConsultOutcome.thrown msg) ∧
    (consultAgent a g s e).delays = [2 * 1000, 4 * 1000] := by
  obtain ⟨key, hkey⟩ := Option.isSome_iff_exists.mp hk
  have hrl := retryLoop_all_fail_transient s e msg hfail ht
  have hfe : handleFinalError msg =
      (if containsSub msg "500" || containsSub msg "INTERNAL" then
        ConsultOutcome.returned internalErrorResponse
      else ConsultOutcome.thrown msg) := by
    unfold handleFinalError
    rw [if_neg (by simp [hq1, hq2]), if_neg (by simp [hi1, hi2])]
  constructor
  · rw [consultAgent_some_key a g key s e hkey, hrl]
    simpa using hfe
  · rw [consultAgent_some_key a g key s e hkey, hrl]

/-- Witness for the amended C4: a "500 oops" failure on every attempt
is retried twice and then converted to the InternalError
remediation. -/
theorem transient_exhausted_remediation_witness :
    (consultAgent (some "k") none (sendFailWith "500 oops") execAbsent).outcome =
      (if containsSub "500 oops" "500" || containsSub "500 oops" "INTERNAL" then
        ConsultOutcome.returned internalErrorResponse
      else ConsultOutcome.thrown "500 oops") ∧
    (consultAgent (some "k") none (sendFailWith "500 oops") execAbsent).delays =
      [2 * 1000, 4 * 1000] :=
  transient_exhausted_remediation (some "k") none (sendFailWith "500 oops") execAbsent
    "500 oops" (by decide) (by decide) (by decide) (by decide) (by decide) (by decide)
    (fun i => rfl)

/-- Counterexample to C5 as stated: the message "INTERNAL 429"
contains "429" yet the turn IS retried (two backoff delays are
recorded), because the transient check runs before the quota check. -/
theorem quota_never_retried_counterexample :
    (consultAgent (some "k") none (sendFailWith "INTERNAL 429") execAbsent).delays =
      [2 * 1000, 4 * 1000] ∧
    containsSub "INTERNAL 429" "429" = true ∧
    ([2 * 1000, 4 * 1000] : List Nat) ≠ [] := by
  refine ⟨?_, by decide, by decide⟩
  have hrl := retryLoop_all_fail_transient (sendFailWith "INTERNAL 429") execAbsent
    "INTERNAL 429" (fun i => rfl) (by decide)
  rw [consultAgent_some_key (some "k") none "k" _ _ (by decide), hrl]

/-- Claim C5 (amended): an error whose message contains "429" always
ends the turn with the quota-exhausted remediation; it is never
retried provided the message also matches none of the Transient
substrings (if it does match one, the transient retries run first but
the quota remediation is still returned). -/
theorem quota_error_no_retry (a g : Option String)
    (s : Nat → Nat → Except String ModelResponse) (e : ToolCall → Except String String)
    (msg : String)
    (hk : (resolveApiKey a g).isSome = true)
    (h429 : containsSub msg "429" = true)
    (hfail : ∀ i, runAttempt (s i) e = .error msg) :
    (consultAgent a g s e).outcome = .returned quotaResponse ∧
    (isTransient msg = false →
      consultAgent a g s e =
        { outcome := .returned quotaResponse, delays := [], attempts := 1
          sessionCreated := true }) := by
  obtain ⟨key, hkey⟩ := Option.isSome_iff_exists.mp hk
  have hfe : handleFinalError msg = .returned quotaResponse := by
    unfold handleFinalError
    rw [if_pos (by simp [h429])]
  constructor
  · cases ht : isTransient msg with
    | false =>
      have hrl := retryLoop_fail_nontransient s e msg (hfail 0) ht
      rw [consultAgent_some_key a g key s e hkey, hrl]
      simpa using hfe
    | true =>
      have hrl := retryLoop_all_fail_transient s e msg hfail ht
      rw [consultAgent_some_key a g key s e hkey, hrl]
      simpa using hfe
  · intro ht
    have hrl := retryLoop_fail_nontransient s e msg (hfail 0) ht
    rw [consultAgent_some_key a g key s e hkey, hrl, hfe]

/-- Witness for the amended C5: a pure "429" failure is never retried
and yields the quota remediation on the first attempt. -/
theorem quota_error_no_retry_witness :
    (consultAgent (some "k") none (sendFailWith "429") execAbsent).outcome =
      .returned quotaResponse ∧
    consultAgent (some "k") none (sendFailWith "429") execAbsent =
      { outcome := .returned quotaResponse, delays := [], attempts := 1
        sessionCreated := true } :=
  ⟨(quota_error_no_retry (some "k") none (sendFailWith "429") execAbsent "429"
      (by decide) (by decide) (fun i => rfl)).1,
    (quota_error_no_retry (some "k") none (sendFailWith "429") execAbsent "429"
      (by decide) (by decide) (fun i => rfl)).2 (by decide)⟩

/-- Counterexample to C6 as stated: on an Unclassified failure
consultAgent re-throws the error; it does not return the generic
post-loop failure AgentResponse. -/
theorem unclassified_rethrow_counterexample :
    (consultAgent (some "k") none (sendFailWith "weird error") execAbsent).outcome =
      .thrown "weird error" ∧
    ConsultOutcome.thrown "weird error" ≠ .returned fallbackResponse := by
  refine ⟨?_, by decide⟩
  have hrl := retryLoop_fail_nontransient (sendFailWith "weird error") execAbsent
    "weird error" rfl (by decide)
  have hfe : handleFinalError "weird error" = .thrown "weird error" := by decide
  rw [consultAgent_some_key (some "k") none "k" _ _ (by decide), hrl, hfe]

/-- Claim C6 (amended): a failure the classifier leaves Unclassified is
re-thrown to the caller on its first occurrence (no retry); the
post-loop generic failure response is not what the caller sees. -/
theorem unclassified_error_rethrow (a g : Option String)
    (s : Nat → Nat → Except String ModelResponse) (e : ToolCall → Except String String)
    (msg : String)
    (hk : (resolveApiKey a g).isSome = true)
    (h0 : runAttempt (s 0) e = .error msg)
    (ht : isTransient msg = false)
    (hq1 : containsSub msg "429" = false) (hq2 : containsSub msg "RESOURCE_EXHAUSTED" = false)
    (hi1 : containsSub msg "API_KEY_INVALID" = false)
    (hi2 : containsSub msg "invalid API key" = false) :
    consultAgent a g s e =
      { outcome := .thrown msg, delays := [], attempts := 1, sessionCreated := true } := by
  obtain ⟨key, hkey⟩ := Option.isSome_iff_exists.mp hk
  have h5 : containsSub msg "500" = false := by
    revert ht
    unfold isTransient
    cases containsSub msg "500" <;> simp
  have hI : containsSub msg "INTERNAL" = false := by
    revert ht
    unfold isTransient
    cases containsSub msg "INTERNAL" <;> simp
  have hfe : handleFinalError msg = .thrown msg := by
    unfold handleFinalError
    rw [if_neg (by simp [hq1, hq2]), if_neg (by simp [hi1, hi2]),
      if_neg (by simp [h5, hI])]
  have hrl := retryLoop_fail_nontransient s e msg h0 ht
  rw [consultAgent_some_key a g key s e hkey, hrl, hfe]

/-- Witness for the amended C6: the unclassifiable message "mystery" is
re-thrown after a single attempt. -/
theorem unclassified_error_rethrow_witness :
    consultAgent (some "k") none (sendFailWith "mystery") execAbsent =
      { outcome := .thrown "mystery", delays := [], attempts := 1, sessionCreated := true } :=
  unclassified_error_rethrow (some "k") none (sendFailWith "mystery") execAbsent "mystery"
    (by decide) rfl (by decide) (by decide) (by decide) (by decide) (by decide)

/-- Counterexample to C8 as stated: a no-calls first response whose
text is the empty string is NOT returned verbatim; the placeholder
"Task completed." is substituted. -/
theorem verbatim_text_counterexample :
    (consultAgent (some "k") none sendEmptyText execAbsent).outcome =
      .returned { text := "Task completed.", sources := [] } ∧
    respEmptyText.text = some "" ∧
    ("Task completed." : String) ≠ "" := by
  refine ⟨?_, rfl, by decide⟩
  have hA : runAttempt (sendEmptyText 0) execAbsent =
      .ok { text := "Task completed.", sources := [] } := by
    simp [runAttempt, sendEmptyText, fcLoop, respEmptyText, jsOrDefault, extractSources]
  have hrl := retryLoop_ok_step sendEmptyText execAbsent 0 _ (by simp [maxRetries]) hA
  rw [consultAgent_some_key (some "k") none "k" _ _ (by decide), hrl]

/-- Claim C8 (amended): for a first model response with no tool calls,
the returned text is the model text verbatim when that text is present
and nonempty (otherwise the placeholder "Task completed."), and the
sources are exactly the grounding chunks carrying a web citation,
mapped to {uri, title} in the model's order. -/
theorem no_calls_response_extraction (a g : Option String)
    (s : Nat → Nat → Except String ModelResponse) (e : ToolCall → Except String String)
    (r0 : ModelResponse)
    (hk : (resolveApiKey a g).isSome = true)
    (h0 : s 0 0 = .ok r0)
    (hnc : r0.functionCalls.isSome = false) :
    consultAgent a g s e =
      { outcome := .returned { text := jsOrDefault r0.text "Task completed."
                               sources := extractSources r0.chunks }
        delays := [], attempts := 1, sessionCreated := true } ∧
    extractSources r0.chunks =
      (r0.chunks.getD []).filterMap fun c => c.web.map fun w => { uri := w.uri, title := w.title } := by
  obtain ⟨key, hkey⟩ := Option.isSome_iff_exists.mp hk
  have hA : runAttempt (s 0) e =
      .ok { text := jsOrDefault r0.text "Task completed."
            sources := extractSources r0.chunks } := by
    unfold runAttempt
    simp only [h0]
    rw [fcLoop.eq_def]
    rw [dif_neg (by simp [hnc])]
  have hrl := retryLoop_ok_step s e 0 _ (by simp [maxRetries]) hA
  rw [consultAgent_some_key a g key s e hkey, hrl]
  exact ⟨rfl, extractSources_eq_filterMap r0.chunks⟩

/-- A web citation used by the C8 witness. -/
def webA : WebSource := { uri := "https://x", title := "d" }

/-- A no-calls model response carrying one cited and one uncited
grounding chunk. -/
def respCited : ModelResponse :=
  { text := some "Answer.", functionCalls := none
    chunks := some [{ web := some webA }, { web := none }] }

/-- A model that always answers with `respCited`. -/
def sendCited : Nat → Nat → Except String ModelResponse := fun _ _ => .ok respCited

/-- Witness for the amended C8: a cited no-calls response is extracted
into text and sources on the first attempt. -/
theorem no_calls_response_extraction_witness :
    consultAgent (some "k") none sendCited execAbsent =
      { outcome := .returned { text := jsOrDefault respCited.text "Task completed."
                               sources := extractSources respCited.chunks }
        delays := [], attempts := 1, sessionCreated := true } :=
  (no_calls_response_extraction (some "k") none sendCited execAbsent respCited
    (by decide) rfl rfl).1

end Nexus
